import Mathlib

/-!
Shallow embedding of the safety-and-resumability core of the
facebook-cleanup repository, and proofs about it.

Covered source files:
* `src/safety/rate_limiter.py`   (`RateLimiter`)
* `src/safety/block_manager.py`  (`BlockManager`)
* `src/safety/error_detector.py` (`ErrorDetector`)
* `src/utils/state_manager.py`   (`StateManager`)
* `src/deletion/deletion_engine.py` (`DeletionEngine.process_page`,
  `DeletionEngine.delete_item`, `DeletionEngine._update_progress_state`)
* `config/settings.py` (the constants the constructors default from)

Modelling conventions:
* wall-clock instants are rationals, in seconds; `datetime.now()` becomes an
  explicit time argument threaded through each operation;
* `time.sleep` / the stealth Gaussian delay is dropped: it has no effect on
  any data the claims mention;
* a Playwright page is abstracted to its observable surface: a URL string and
  an optional content string (`none` models `page.content()` raising);
* handler objects are abstracted to their two methods; `delete` is an oracle
  from the attempt index to an outcome, so that a handler that fails twice and
  then succeeds is expressible;
* fallible Python code (exceptions) is modelled with `Option`/`Except`;
* the JSON file behind `StateManager` is modelled as parsed JSON; an
  unreadable or undecodable file (missing, empty, malformed) is a dedicated
  constructor, mirroring `json.load` raising `JSONDecodeError`.
-/

set_option autoImplicit false

namespace FbCleanup

/-! ### Character/string helpers (Python `str.lower` and `in`) -/

/-- Is `pat` a prefix of `s` (on character lists)? -/
def charsHasPre : List Char → List Char → Bool
  | [], _ => true
  | _ :: _, [] => false
  | c :: cs, d :: ds => if c = d then charsHasPre cs ds else false

/-- Does the haystack contain the pattern as a contiguous substring? -/
def charsHasSub : List Char → List Char → Bool
  | [], pat => pat.isEmpty
  | c :: rest, pat => if charsHasPre pat (c :: rest) then true else charsHasSub rest pat

/-- Python `pat in s` on strings. -/
def strHasSub (s pat : String) : Bool :=
  charsHasSub s.data pat.data

/-- Python `s.lower()` (ASCII, which is all the source's vocabulary uses). -/
def strLower (s : String) : String :=
  String.mk (s.data.map Char.toLower)

/-! ### `config/settings.py` constants -/

def MAX_DELETIONS_PER_HOUR : Nat := 50
def MEAN_DELAY_SECONDS : ℚ := 5
def DELAY_STD_DEV : ℚ := 3/2
def MIN_DELAY_SECONDS : ℚ := 2
def BLOCK_WAIT_HOURS : ℚ := 24
def BACKOFF_MULTIPLIER : ℚ := 3/2

/-- Python `x or default` for an optional numeric argument: `None` and `0`
are falsy and select the default. -/
def orElseNat (x : Option Nat) (d : Nat) : Nat :=
  match x with
  | none => d
  | some n => if n = 0 then d else n

/-- Python `x or default` for an optional rational argument. -/
def orElseRat (x : Option ℚ) (d : ℚ) : ℚ :=
  match x with
  | none => d
  | some q => if q = 0 then d else q

/-! ### `src/safety/rate_limiter.py` -/

structure RateLimiter where
  max_per_hour : Nat
  mean_delay : ℚ
  std_dev : ℚ
  min_delay : ℚ
  action_times : List ℚ
  deleted_count : Nat
deriving Repr, DecidableEq

/-- `RateLimiter.__init__`: every argument defaults through Python `or`. -/
def RateLimiter.init (max_per_hour : Option Nat) (mean_delay std_dev min_delay : Option ℚ) :
    RateLimiter where
  max_per_hour := orElseNat max_per_hour MAX_DELETIONS_PER_HOUR
  mean_delay := orElseRat mean_delay MEAN_DELAY_SECONDS
  std_dev := orElseRat std_dev DELAY_STD_DEV
  min_delay := orElseRat min_delay MIN_DELAY_SECONDS
  action_times := []
  deleted_count := 0

/-- The pruning step of `check_rate_limit`: keep timestamps strictly newer
than `now - 1 hour`. -/
def pruneWindow (now : ℚ) (times : List ℚ) : List ℚ :=
  times.filter (fun t => now - 3600 < t)

/-- `RateLimiter.check_rate_limit`: prunes the window in place, then reports
`false` when the pruned count has reached `max_per_hour`. -/
def RateLimiter.check_rate_limit (rl : RateLimiter) (now : ℚ) : Bool × RateLimiter :=
  let pruned := pruneWindow now rl.action_times
  let rl1 := { rl with action_times := pruned }
  if rl1.max_per_hour ≤ pruned.length then (false, rl1) else (true, rl1)

/-- `RateLimiter.wait_before_action`: check the limit; on success the source
sleeps a Gaussian delay (not modelled) and returns `true`. -/
def RateLimiter.wait_before_action (rl : RateLimiter) (now : ℚ) : Bool × RateLimiter :=
  let cr := rl.check_rate_limit now
  if cr.1 = false then (false, cr.2) else (true, cr.2)

/-- `RateLimiter.record_action`. -/
def RateLimiter.record_action (rl : RateLimiter) (now : ℚ) : RateLimiter :=
  { rl with
    action_times := rl.action_times ++ [now]
    deleted_count := rl.deleted_count + 1 }

/-- A sequence of `record_action` calls at the given instants. -/
def RateLimiter.recordAll (rl : RateLimiter) (ts : List ℚ) : RateLimiter :=
  ts.foldl (fun r t => r.record_action t) rl

/-! ### `src/safety/error_detector.py` -/

/-- The observable surface of a Playwright page: its URL and its rendered
content; `content = none` models `page.content()` raising. -/
structure Page where
  url : String
  content : Option String
deriving Repr, DecidableEq

def ERROR_INDICATORS : List String :=
  ["You\x27re going too fast",
   "This feature is temporarily blocked",
   "Action Blocked",
   "Too many requests",
   "Please slow down",
   "Temporarily unavailable",
   "Try again later",
   "Something went wrong",
   "We\x27re having trouble",
   "Unable to complete"]

def error_url_patterns : List String :=
  ["error", "blocked", "unavailable", "restricted", "checkpoint", "security"]

structure ErrorDetector where
  indicators : List String

/-- `ErrorDetector.__init__`: an empty `additional_indicators` list is falsy
in Python and adds nothing. -/
def ErrorDetector.init (additional : Option (List String)) : ErrorDetector where
  indicators :=
    ERROR_INDICATORS ++
      (match additional with
       | some l => if l.isEmpty then [] else l
       | none => [])

/-- `ErrorDetector.check_url_for_errors`. -/
def check_url_for_errors (url : String) : Bool :=
  error_url_patterns.any (fun p => strHasSub (strLower url) p)

/-- First indicator whose lowercase form occurs in the (already lowered)
content, in list order. -/
def findIndicator (content : String) : List String → Option String
  | [] => none
  | ind :: rest =>
      if strHasSub content (strLower ind) then some ind else findIndicator content rest

/-- `ErrorDetector.check_for_errors`: URL first; then content scan; a content
retrieval failure is fail-open `(false, none)`. -/
def ErrorDetector.check_for_errors (det : ErrorDetector) (page : Page) :
    Bool × Option String :=
  if check_url_for_errors page.url then
    (true, some ("Error URL detected: " ++ page.url))
  else
    match page.content with
    | none => (false, none)
    | some c =>
        match findIndicator (strLower c) det.indicators with
        | some ind => (true, some ("Error message detected: " ++ ind))
        | none => (false, none)

/-! ### `src/safety/block_manager.py` -/

structure BlockManager where
  block_wait_hours : ℚ
  backoff_multiplier : ℚ
  block_detected : Bool
  last_block_time : Option ℚ
  block_count : Nat
deriving Repr, DecidableEq

/-- `BlockManager.__init__`. -/
def BlockManager.init (block_wait_hours backoff_multiplier : Option ℚ) : BlockManager where
  block_wait_hours := orElseRat block_wait_hours BLOCK_WAIT_HOURS
  backoff_multiplier := orElseRat backoff_multiplier BACKOFF_MULTIPLIER
  block_detected := false
  last_block_time := none
  block_count := 0

/-- `BlockManager.check_and_handle_block` at instant `now`. -/
def BlockManager.check_and_handle_block (bm : BlockManager) (page : Page)
    (det : ErrorDetector) (now : ℚ) : Bool × BlockManager :=
  let er := det.check_for_errors page
  if er.1 then
    (true,
     { bm with
       block_detected := true
       last_block_time := some now
       block_count := bm.block_count + 1 })
  else (false, bm)

/-- `BlockManager.should_continue` at instant `now`. -/
def BlockManager.should_continue (bm : BlockManager) (now : ℚ) : Bool :=
  if bm.block_detected = false then true
  else
    match bm.last_block_time with
    | none => true
    | some t => if (now - t) / 3600 < bm.block_wait_hours then false else true

/-- `BlockManager.apply_backoff`: early return when `block_count == 0`,
otherwise scale `mean_delay` by `backoff_multiplier ** block_count` and
`std_dev` by 1.2, in place. -/
def BlockManager.apply_backoff (bm : BlockManager) (rl : RateLimiter) : RateLimiter :=
  if bm.block_count = 0 then rl
  else
    { rl with
      mean_delay := rl.mean_delay * bm.backoff_multiplier ^ bm.block_count
      std_dev := rl.std_dev * (6/5) }

/-! ### JSON values and dictionary operations (`src/utils/state_manager.py`) -/

/-- A parsed JSON value, as produced by the external `json` library. -/
inductive Json where
  | null
  | bool (b : Bool)
  | num (q : ℚ)
  | str (s : String)
  | arr (elems : List Json)
  | obj (fields : List (String × Json))

/-- Python `isinstance(state, dict)`. -/
def Json.isDict : Json → Bool
  | Json.obj _ => true
  | _ => false

/-- Python `key in d` on a dict modelled as an association list. -/
def hasKeyB : List (String × Json) → String → Bool
  | [], _ => false
  | (k, _) :: rest, key => if k = key then true else hasKeyB rest key

/-- Python `d[key]` lookup (first match). -/
def lookupKey : List (String × Json) → String → Option Json
  | [], _ => none
  | (k, v) :: rest, key => if k = key then some v else lookupKey rest key

/-- Replace the value stored at `key`, keeping its position. -/
def setInPlace : List (String × Json) → String → Json → List (String × Json)
  | [], _, _ => []
  | (k, w) :: rest, key, v =>
      if k = key then (key, v) :: setInPlace rest key v
      else (k, w) :: setInPlace rest key v

/-- Python `d[key] = v`: replace in place when present, append otherwise. -/
def dictSet (fields : List (String × Json)) (key : String) (v : Json) :
    List (String × Json) :=
  if hasKeyB fields key then setInPlace fields key v
  else fields ++ [(key, v)]

/-- The progress file as seen through `open` + `json.load`: `missing` when
the path does not exist, `decodeError` when reading raises (covers the empty
file and malformed JSON, both of which make `json.load` raise), and the
parsed value otherwise. -/
inductive FileState where
  | missing
  | decodeError
  | parsed (v : Json)

/-- `StateManager._validate_state`'s recognized-key list. -/
def expected_fields : List String :=
  ["last_updated", "total_deleted", "errors_encountered", "block_detected"]

/-- `StateManager._validate_state`: must be a dict holding at least one of
the recognized keys. -/
def validate_state (state : Json) : Bool :=
  if state.isDict = false then false
  else
    match state with
    | Json.obj fields => expected_fields.any (fun k => hasKeyB fields k)
    | _ => false

/-- `StateManager.load_state`: `none` on a missing file, on a decode failure
(every raised exception is caught and converted to `None`), and on a value
failing the validator. -/
def load_state (file : FileState) : Option Json :=
  match file with
  | FileState.missing => none
  | FileState.decodeError => none
  | FileState.parsed v => if validate_state v then some v else none

/-- A `StateManager` instance: the `_state` in-memory cache and the file at
`progress_path`. -/
structure StateManager where
  cache : Option Json
  file : FileState

/-- `StateManager._default_state`; `nowIso` stands for
`datetime.now().isoformat()`. -/
def default_state (nowIso : String) : Json :=
  Json.obj
    [("last_updated", Json.str nowIso),
     ("current_year", Json.null),
     ("current_month", Json.null),
     ("current_category", Json.null),
     ("total_deleted", Json.num 0),
     ("deleted_today", Json.num 0),
     ("last_url", Json.null),
     ("errors_encountered", Json.num 0),
     ("block_detected", Json.bool false),
     ("block_count", Json.num 0),
     ("session_start", Json.str nowIso)]

/-- `StateManager.get_state`: cached state, else load-or-default (both
`load_state` and `get_state` set the cache). -/
def StateManager.get_state (sm : StateManager) (nowIso : String) : Json × StateManager :=
  match sm.cache with
  | some s => (s, sm)
  | none =>
      match load_state sm.file with
      | some s => (s, { sm with cache := some s })
      | none => (default_state nowIso, { sm with cache := some (default_state nowIso) })

/-- `StateManager.save_state` on a dict state: stamp `last_updated`, write
atomically (`json.dump` to a temp file, rename), cache a copy. The `.bak`
copy of the prior file and I/O failure of the write (logged and swallowed in
the source) are not modelled. -/
def StateManager.save_state (sm : StateManager) (fields : List (String × Json))
    (nowIso : String) : StateManager :=
  let stamped := dictSet fields "last_updated" (Json.str nowIso)
  { sm with cache := some (Json.obj stamped), file := FileState.parsed (Json.obj stamped) }

/-- Read the persisted file as a dict and look up a key. -/
def persisted (sm : StateManager) (key : String) : Option Json :=
  match sm.file with
  | FileState.parsed (Json.obj fields) => lookupKey fields key
  | _ => none

/-! ### `src/deletion/deletion_engine.py` -/

/-- An extracted item, reduced to the two dict entries the engine reads
(`item.get("type")`, `item.get("date_string")`). -/
structure Item where
  itemType : Option String
  dateString : Option String
deriving Repr, DecidableEq

/-- One call to `handler.delete(page, item)`: a returned `(success, message)`
pair, a raised `PlaywrightTimeoutError`, or any other raised exception. -/
inductive DeleteOutcome where
  | result (success : Bool) (message : String)
  | timeoutRaise (msg : String)
  | raised (msg : String)
deriving Repr, DecidableEq

/-- A deletion handler, abstracted to its two methods. `canHandle` may raise
(`Except.error`); `deleteRun item n` is the outcome of the `n`-th (0-based)
`delete` invocation for that item. -/
structure Handler where
  canHandle : Item → Except String Bool
  deleteRun : Item → Nat → DeleteOutcome

/-- `DeletionEngine._select_handler`: first handler whose `can_handle`
returns true; a handler raising inside `can_handle` is skipped. -/
def select_handler (handlers : List Handler) (item : Item) : Option Handler :=
  handlers.find? (fun h =>
    match h.canHandle item with
    | Except.ok b => b
    | Except.error _ => false)

/-- Python `o if o is not None else "None"` as produced by an f-string. -/
def pyStrOfOpt (o : Option String) : String :=
  match o with
  | none => "None"
  | some s => s

/-- Python `item.get(key, "unknown")`. -/
def optD (o : Option String) (d : String) : String :=
  o.getD d

/-- The failure message when no handler matches. -/
def no_handler_msg (item : Item) : String :=
  "No handler found for item type: " ++ pyStrOfOpt item.itemType

/-- The retry classification of `delete_item`: a failure message is
transient when it contains "timeout" or "network" (case-insensitive). -/
def isTransientMsg (msg : String) : Bool :=
  strHasSub (strLower msg) "timeout" || strHasSub (strLower msg) "network"

/-- Python `last_error or "Deletion failed after retries"` (an empty string
is falsy). -/
def pyOrStr (o : Option String) (d : String) : String :=
  match o with
  | none => d
  | some s => if s = "" then d else s

/-- The `for attempt in range(max_retries)` loop of `delete_item`, with the
remaining iteration count as fuel. The second component of the value counts
how many times `handler.delete` was invoked (instrumentation; it does not
influence the result). -/
def run_attempts (beh : Nat → DeleteOutcome) :
    Nat → Nat → Option String → (Bool × String) × Nat
  | _attempt, 0, lastError => ((false, pyOrStr lastError "Deletion failed after retries"), 0)
  | attempt, remaining + 1, _lastError =>
      match beh attempt with
      | DeleteOutcome.result true msg => ((true, msg), 1)
      | DeleteOutcome.result false msg =>
          if isTransientMsg msg = false then ((false, msg), 1)
          else
            let r := run_attempts beh (attempt + 1) remaining (some msg)
            (r.1, r.2 + 1)
      | DeleteOutcome.timeoutRaise m =>
          let r := run_attempts beh (attempt + 1) remaining (some ("Timeout: " ++ m))
          (r.1, r.2 + 1)
      | DeleteOutcome.raised m => ((false, "Unexpected error: " ++ m), 1)

/-- `DeletionEngine.delete_item`: select a handler, then the bounded retry
loop. The second component counts `handler.delete` invocations. -/
def delete_item (handlers : List Handler) (item : Item) (max_retries : Nat := 3) :
    (Bool × String) × Nat :=
  match select_handler handlers item with
  | none => ((false, no_handler_msg item), 0)
  | some h => run_attempts (h.deleteRun item) 0 max_retries none

/-- One entry of the batch outcome's `errors` list. -/
structure ErrEntry where
  item : String
  date : String
  error : String
deriving Repr, DecidableEq

/-- The batch outcome dict of `process_page`. -/
structure Stats where
  deleted : Nat
  failed : Nat
  skipped : Nat
  errors : List ErrEntry
deriving Repr, DecidableEq

def block_error_entry : ErrEntry :=
  ⟨"block", "N/A", "Action block detected, must wait"⟩

def rate_limit_entry : ErrEntry :=
  ⟨"rate_limit", "N/A", "Rate limit exceeded"⟩

/-- Tallying of a `delete_item` result into the outcome (step e of the
per-item loop). -/
def tally (stats : Stats) (item : Item) (dres : Bool × String) : Stats :=
  if dres.1 then { stats with deleted := stats.deleted + 1 }
  else
    { stats with
      failed := stats.failed + 1
      errors := stats.errors ++
        [⟨optD item.itemType "unknown", optD item.dateString "unknown", dres.2⟩] }

/-- The mutable collaborators of a `DeletionEngine`. -/
structure Engine where
  rl : RateLimiter
  bm : BlockManager
  sm : StateManager
  handlers : List Handler
  det : ErrorDetector

/-- The external world during one `process_page` call: the page observed
after deleting item `i`, the clock at step `i`, and the timestamp string the
state save will stamp. -/
structure StepEnv where
  stepPage : Nat → Page
  stepTime : Nat → ℚ
  nowIso : String

/-- The per-item loop of `process_page`: block gate, rate gate, deletion,
`record_action`, post-deletion error check with block escalation, tally. -/
def process_items (env : StepEnv) (handlers : List Handler) (det : ErrorDetector) :
    List Item → Nat → RateLimiter → BlockManager → Stats →
    Stats × RateLimiter × BlockManager
  | [], _i, rl, bm, stats => (stats, rl, bm)
  | item :: rest, i, rl, bm, stats =>
      if bm.should_continue (env.stepTime i) = false then
        ({ stats with errors := stats.errors ++ [block_error_entry] }, rl, bm)
      else
        let wr := rl.wait_before_action (env.stepTime i)
        if wr.1 = false then
          ({ stats with errors := stats.errors ++ [rate_limit_entry] }, wr.2, bm)
        else
          let dres := (delete_item handlers item 3).1
          let rl2 := wr.2.record_action (env.stepTime i)
          let er := det.check_for_errors (env.stepPage i)
          if er.1 then
            let cb := bm.check_and_handle_block (env.stepPage i) det (env.stepTime i)
            if cb.1 then
              ({ stats with errors := stats.errors ++
                  [⟨optD item.itemType "unknown", optD item.dateString "unknown",
                    "Block detected: " ++ pyStrOfOpt er.2⟩] },
               cb.2.apply_backoff rl2, cb.2)
            else
              process_items env handlers det rest (i + 1) rl2 cb.2 (tally stats item dres)
          else
            process_items env handlers det rest (i + 1) rl2 bm (tally stats item dres)

/-- The `+=` of `_update_progress_state` on one counter field: `none` models
the raised `KeyError`/`TypeError` when the key is absent or non-numeric. -/
def bumpNumField (fields : List (String × Json)) (key : String) (n : Nat) :
    Option (List (String × Json)) :=
  match lookupKey fields key with
  | some (Json.num q) => some (dictSet fields key (Json.num (q + n)))
  | _ => none

/-- The body of `_update_progress_state`'s `try` block up to the save: add
the batch deltas, then mirror the block fields. -/
def try_update (state : Json) (stats : Stats) (bm : BlockManager) :
    Option (List (String × Json)) :=
  match state with
  | Json.obj fields =>
      match bumpNumField fields "total_deleted" stats.deleted with
      | none => none
      | some f1 =>
          match bumpNumField f1 "deleted_today" stats.deleted with
          | none => none
          | some f2 =>
              match bumpNumField f2 "errors_encountered" stats.errors.length with
              | none => none
              | some f3 =>
                  some (dictSet
                    (dictSet f3 "block_detected" (Json.bool bm.block_detected))
                    "block_count" (Json.num bm.block_count))
  | _ => none

/-- `DeletionEngine._update_progress_state`: `get_state`, mutate, save; any
exception in the `try` block is swallowed and nothing is saved. (The partial
in-place mutation of the cached dict on the exception path is not modelled;
no theorem below reads the cache after a failed update.) -/
def update_progress_state (eng : Engine) (stats : Stats) (nowIso : String) : StateManager :=
  match try_update (eng.sm.get_state nowIso).1 stats eng.bm with
  | none => (eng.sm.get_state nowIso).2
  | some fields => ((eng.sm.get_state nowIso).2).save_state fields nowIso

/-- `DeletionEngine.process_page`, with the `ItemExtractor.extract_items`
collaborator abstracted into the `items` argument. An empty extraction
returns the zeroed outcome directly; otherwise the per-item loop runs and
`_update_progress_state` persists afterwards. -/
def process_page (env : StepEnv) (eng : Engine) (items : List Item) : Stats × Engine :=
  let stats0 : Stats := ⟨0, 0, 0, []⟩
  if items.isEmpty then (stats0, eng)
  else
    let r := process_items env eng.handlers eng.det items 0 eng.rl eng.bm stats0
    let eng1 : Engine := { eng with rl := r.2.1, bm := r.2.2 }
    (r.1, { eng1 with sm := update_progress_state eng1 r.1 env.nowIso })

/-! ### Concrete fixtures used by closed witness theorems -/

/-- A step environment whose pages read clean and whose clock is constant. -/
def c1EnvW : StepEnv :=
  ⟨fun _ => ⟨"https://m.example/log", none⟩, fun _ => 0, "T0"⟩

/-- A freshly constructed engine over an absent progress file. -/
def c1EngW : Engine :=
  ⟨RateLimiter.init none none none none, BlockManager.init none none,
   ⟨none, FileState.missing⟩, [], ErrorDetector.init none⟩

/-- The field list of `default_state "T0"`. -/
def c1FieldsT0 : List (String × Json) :=
  [("last_updated", Json.str "T0"),
   ("current_year", Json.null),
   ("current_month", Json.null),
   ("current_category", Json.null),
   ("total_deleted", Json.num 0),
   ("deleted_today", Json.num 0),
   ("last_url", Json.null),
   ("errors_encountered", Json.num 0),
   ("block_detected", Json.bool false),
   ("block_count", Json.num 0),
   ("session_start", Json.str "T0")]

/-! ### Helper lemmas -/

theorem lookupKey_setInPlace_self (fields : List (String × Json)) (key : String) (v : Json)
    (h : hasKeyB fields key = true) :
    lookupKey (setInPlace fields key v) key = some v := by
  induction fields with
  | nil => simp [hasKeyB] at h
  | cons p rest ih =>
      obtain ⟨k, w⟩ := p
      by_cases hk : k = key
      · unfold setInPlace
        rw [if_pos hk]
        unfold lookupKey
        rw [if_pos rfl]
      · unfold setInPlace
        rw [if_neg hk]
        unfold lookupKey
        rw [if_neg hk]
        unfold hasKeyB at h
        rw [if_neg hk] at h
        exact ih h

theorem lookupKey_setInPlace_ne (fields : List (String × Json)) (key key' : String) (v : Json)
    (hne : ¬ key' = key) :
    lookupKey (setInPlace fields key v) key' = lookupKey fields key' := by
  induction fields with
  | nil => rfl
  | cons p rest ih =>
      obtain ⟨k, w⟩ := p
      by_cases hk : k = key
      · have hkey : ¬ key = key' := fun hc => hne (Eq.symm hc)
        have hk' : ¬ k = key' := by
          rw [hk]
          exact hkey
        unfold setInPlace
        rw [if_pos hk]
        unfold lookupKey
        rw [if_neg hkey, if_neg hk']
        exact ih
      · unfold setInPlace
        rw [if_neg hk]
        unfold lookupKey
        by_cases hk2 : k = key'
        · rw [if_pos hk2, if_pos hk2]
        · rw [if_neg hk2, if_neg hk2]
          exact ih

theorem lookupKey_append_right (fields : List (String × Json)) (key : String) (v : Json)
    (h : hasKeyB fields key = false) :
    lookupKey (fields ++ [(key, v)]) key = some v := by
  induction fields with
  | nil =>
      show lookupKey [(key, v)] key = some v
      unfold lookupKey
      rw [if_pos rfl]
  | cons p rest ih =>
      obtain ⟨k, w⟩ := p
      unfold hasKeyB at h
      by_cases hk : k = key
      · rw [if_pos hk] at h
        exact absurd h (by simp)
      · rw [if_neg hk] at h
        show lookupKey ((k, w) :: (rest ++ [(key, v)])) key = some v
        unfold lookupKey
        rw [if_neg hk]
        exact ih h

theorem lookupKey_append_ne (fields : List (String × Json)) (key key' : String) (v : Json)
    (hne : ¬ key' = key) :
    lookupKey (fields ++ [(key, v)]) key' = lookupKey fields key' := by
  induction fields with
  | nil =>
      show lookupKey [(key, v)] key' = none
      unfold lookupKey
      rw [if_neg (fun hc => hne (Eq.symm hc))]
      rfl
  | cons p rest ih =>
      obtain ⟨k, w⟩ := p
      show lookupKey ((k, w) :: (rest ++ [(key, v)])) key' = lookupKey ((k, w) :: rest) key'
      unfold lookupKey
      by_cases hk : k = key'
      · rw [if_pos hk, if_pos hk]
      · rw [if_neg hk, if_neg hk]
        exact ih

theorem lookupKey_dictSet_self (fields : List (String × Json)) (key : String) (v : Json) :
    lookupKey (dictSet fields key v) key = some v := by
  unfold dictSet
  by_cases h : hasKeyB fields key = true
  · rw [if_pos h]
    exact lookupKey_setInPlace_self fields key v h
  · rw [if_neg h]
    exact lookupKey_append_right fields key v (by
      cases hb : hasKeyB fields key
      · rfl
      · exact absurd hb h)

theorem lookupKey_dictSet_ne (fields : List (String × Json)) (key key' : String) (v : Json)
    (hne : ¬ key' = key) :
    lookupKey (dictSet fields key v) key' = lookupKey fields key' := by
  unfold dictSet
  by_cases h : hasKeyB fields key = true
  · rw [if_pos h]
    exact lookupKey_setInPlace_ne fields key key' v hne
  · rw [if_neg h]
    exact lookupKey_append_ne fields key key' v hne

theorem hasKeyB_of_lookup (fields : List (String × Json)) (key : String) (v : Json)
    (h : lookupKey fields key = some v) : hasKeyB fields key = true := by
  induction fields with
  | nil => simp [lookupKey] at h
  | cons p rest ih =>
      obtain ⟨k, w⟩ := p
      by_cases hk : k = key
      · simp [hasKeyB, hk]
      · simp only [lookupKey, if_neg hk] at h
        simp [hasKeyB, hk, ih h]

theorem validate_state_dictSet_last_updated (fields : List (String × Json)) (v : Json) :
    validate_state (Json.obj (dictSet fields "last_updated" v)) = true := by
  have h := hasKeyB_of_lookup (dictSet fields "last_updated" v) "last_updated" v
    (lookupKey_dictSet_self fields "last_updated" v)
  show expected_fields.any (fun k => hasKeyB (dictSet fields "last_updated" v) k) = true
  simp [expected_fields, h]

theorem recordAll_action_times (rl : RateLimiter) (ts : List ℚ) :
    (rl.recordAll ts).action_times = rl.action_times ++ ts := by
  induction ts generalizing rl with
  | nil => simp [RateLimiter.recordAll]
  | cons t ts ih =>
      have : rl.recordAll (t :: ts) = (rl.record_action t).recordAll ts := rfl
      rw [this, ih]
      simp [RateLimiter.record_action]

theorem pruneWindow_eq_filter (now : ℚ) (times : List ℚ) :
    pruneWindow now times = times.filter (fun t => now - t < 3600) := by
  unfold pruneWindow
  apply List.filter_congr
  intro t _
  simp only [decide_eq_decide]
  constructor <;> intro h <;> linarith

/-! ### Claim theorems -/

/-- C4: for every sequence of `record_action` calls and any query time,
`check_rate_limit` answers `false` exactly when the number of recorded
timestamps within the trailing 3600 seconds has reached `max_per_hour`, and
it prunes the stored window to exactly those entries. The last conjunct ties
the window contents to the recorded sequence. -/
theorem c4_rate_limit_window (rl : RateLimiter) (now : ℚ) :
    ((rl.check_rate_limit now).1 = false ↔
      rl.max_per_hour ≤ (rl.action_times.filter (fun t => now - t < 3600)).length) ∧
    (rl.check_rate_limit now).2.action_times
      = rl.action_times.filter (fun t => now - t < 3600) ∧
    ∀ ts : List ℚ, ((RateLimiter.init none none none none).recordAll ts).action_times = ts := by
  refine ⟨?_, ?_, ?_⟩
  · unfold RateLimiter.check_rate_limit
    rw [pruneWindow_eq_filter]
    by_cases h : rl.max_per_hour ≤ (rl.action_times.filter (fun t => now - t < 3600)).length
    · simp [h]
    · simp [h]
  · unfold RateLimiter.check_rate_limit
    rw [pruneWindow_eq_filter]
    by_cases h : rl.max_per_hour ≤ (rl.action_times.filter (fun t => now - t < 3600)).length
    · simp [h]
    · simp [h]
  · intro ts
    rw [recordAll_action_times]
    rfl

/-- C4 witness: with `max_per_hour = 2` and two recorded actions inside the
trailing hour, the check reports `false` and keeps both entries. -/
theorem c4_rate_limit_witness :
    (((RateLimiter.mk 2 5 (3/2) 2 [7000, 7100] 2).check_rate_limit 7200).1 = false ↔
      (2 : Nat) ≤ (([7000, 7100] : List ℚ).filter (fun t => (7200 : ℚ) - t < 3600)).length) ∧
    ((RateLimiter.mk 2 5 (3/2) 2 [7000, 7100] 2).check_rate_limit 7200).2.action_times
      = ([7000, 7100] : List ℚ).filter (fun t => (7200 : ℚ) - t < 3600) ∧
    ((RateLimiter.init none none none none).recordAll [10, 20]).action_times = [10, 20] := by
  have h := c4_rate_limit_window (RateLimiter.mk 2 5 (3/2) 2 [7000, 7100] 2) 7200
  exact ⟨h.1, h.2.1, h.2.2 [10, 20]⟩

/-- C6 counterexample: at `block_count = 0`, `apply_backoff` returns without
touching the limiter, so `std_dev` is not multiplied by 1.2 on that call,
contradicting the claim's "for every n ≥ 0 ... multiplies std_dev by a flat
1.2 per call". -/
theorem c6_backoff_zero_counterexample :
    ¬ (BlockManager.apply_backoff ⟨24, 3/2, false, none, 0⟩
        ⟨50, 5, 1, 2, [], 0⟩).std_dev
      = (⟨50, 5, 1, 2, [], 0⟩ : RateLimiter).std_dev * (6/5) := by
  show ¬ ((1 : ℚ) = 1 * (6/5))
  norm_num

/-- C6 (amended): whenever `block_count = n ≥ 1` at the time of the call,
`apply_backoff` multiplies the limiter's current `mean_delay` by exactly
`backoff_multiplier ^ n` and its current `std_dev` by exactly 1.2, in place;
a second call compounds relative to the new values. At `block_count = 0` the
call is a no-op (last conjunct). -/
theorem c6_backoff_scaling (bm : BlockManager) (rl : RateLimiter)
    (h : 1 ≤ bm.block_count) :
    (bm.apply_backoff rl).mean_delay
      = rl.mean_delay * bm.backoff_multiplier ^ bm.block_count ∧
    (bm.apply_backoff rl).std_dev = rl.std_dev * (6/5) ∧
    (bm.apply_backoff (bm.apply_backoff rl)).mean_delay
      = (bm.apply_backoff rl).mean_delay * bm.backoff_multiplier ^ bm.block_count ∧
    ∀ (bm0 : BlockManager) (rl0 : RateLimiter),
      bm0.block_count = 0 → bm0.apply_backoff rl0 = rl0 := by
  have hne : ¬ bm.block_count = 0 := by omega
  refine ⟨?_, ?_, ?_, ?_⟩
  · simp [BlockManager.apply_backoff, hne]
  · simp [BlockManager.apply_backoff, hne]
  · simp [BlockManager.apply_backoff, hne]
  · intro bm0 rl0 h0
    simp [BlockManager.apply_backoff, h0]

/-- C6 witness: a concrete call at `block_count = 2`. -/
theorem c6_backoff_witness :
    ((⟨24, 3/2, false, none, 2⟩ : BlockManager).apply_backoff
        ⟨50, 5, 1, 2, [], 0⟩).mean_delay
      = (⟨50, 5, 1, 2, [], 0⟩ : RateLimiter).mean_delay
          * (⟨24, 3/2, false, none, 2⟩ : BlockManager).backoff_multiplier
            ^ (⟨24, 3/2, false, none, 2⟩ : BlockManager).block_count ∧
    ((⟨24, 3/2, false, none, 2⟩ : BlockManager).apply_backoff
        ⟨50, 5, 1, 2, [], 0⟩).std_dev
      = (⟨50, 5, 1, 2, [], 0⟩ : RateLimiter).std_dev * (6/5) := by
  have h := c6_backoff_scaling ⟨24, 3/2, false, none, 2⟩ ⟨50, 5, 1, 2, [], 0⟩ (by decide)
  exact ⟨h.1, h.2.1⟩

/-- C7: saving any dict state and loading it back returns exactly the saved
dict, which differs from the input only in the added/overwritten
`last_updated` field. -/
theorem c7_roundtrip (sm : StateManager) (fields : List (String × Json)) (nowIso : String) :
    load_state ((sm.save_state fields nowIso).file)
      = some (Json.obj (dictSet fields "last_updated" (Json.str nowIso))) ∧
    lookupKey (dictSet fields "last_updated" (Json.str nowIso)) "last_updated"
      = some (Json.str nowIso) ∧
    ∀ k, ¬ k = "last_updated" →
      lookupKey (dictSet fields "last_updated" (Json.str nowIso)) k = lookupKey fields k := by
  refine ⟨?_, lookupKey_dictSet_self fields "last_updated" (Json.str nowIso), ?_⟩
  · show (if validate_state (Json.obj (dictSet fields "last_updated" (Json.str nowIso))) = true
        then some (Json.obj (dictSet fields "last_updated" (Json.str nowIso)))
        else none)
      = some (Json.obj (dictSet fields "last_updated" (Json.str nowIso)))
    rw [if_pos (validate_state_dictSet_last_updated fields (Json.str nowIso))]
  · intro k hk
    exact lookupKey_dictSet_ne fields "last_updated" k (Json.str nowIso) hk

/-- C7 witness: a concrete round trip. -/
theorem c7_roundtrip_witness :
    load_state (((⟨none, FileState.missing⟩ : StateManager).save_state
        [("total_deleted", Json.num 7)] "T0").file)
      = some (Json.obj (dictSet [("total_deleted", Json.num 7)] "last_updated" (Json.str "T0"))) ∧
    lookupKey (dictSet [("total_deleted", Json.num 7)] "last_updated" (Json.str "T0"))
        "total_deleted"
      = lookupKey [("total_deleted", Json.num 7)] "total_deleted" := by
  have h := c7_roundtrip ⟨none, FileState.missing⟩ [("total_deleted", Json.num 7)] "T0"
  exact ⟨h.1, h.2.2 "total_deleted" (by decide)⟩

/-- C8: `load_state` returns `None` (and, the source catching every
exception, never raises) on a missing file, on a decode failure — which is
what an empty or malformed file produces from `json.load` — on a JSON object
holding none of the recognized keys, and on a JSON value that is not an
object. -/
theorem c8_load_state_none (fields : List (String × Json)) (v : Json)
    (hk : ∀ k, k ∈ expected_fields → hasKeyB fields k = false)
    (hv : v.isDict = false) :
    load_state FileState.missing = none ∧
    load_state FileState.decodeError = none ∧
    load_state (FileState.parsed (Json.obj fields)) = none ∧
    load_state (FileState.parsed v) = none := by
  refine ⟨rfl, rfl, ?_, ?_⟩
  · have hval : validate_state (Json.obj fields) = false := by
      show expected_fields.any (fun k => hasKeyB fields k) = false
      rw [List.any_eq_false]
      intro k hmem
      simp [hk k hmem]
    show (if validate_state (Json.obj fields) = true then some (Json.obj fields) else none) = none
    rw [hval]
    rfl
  · have hval : validate_state v = false := by
      unfold validate_state
      rw [hv]
      rfl
    show (if validate_state v = true then some v else none) = none
    rw [hval]
    rfl

/-- C8 witness: a foreign-keyed object and a non-object value. -/
theorem c8_load_state_witness :
    load_state FileState.missing = none ∧
    load_state FileState.decodeError = none ∧
    load_state (FileState.parsed (Json.obj [("foo", Json.num 1)])) = none ∧
    load_state (FileState.parsed (Json.num 3)) = none :=
  c8_load_state_none [("foo", Json.num 1)] (Json.num 3) (by decide) rfl

theorem orElseNat_ne_zero (x : Option Nat) (d : Nat) (hd : ¬ d = 0) :
    ¬ orElseNat x d = 0 := by
  unfold orElseNat
  cases x with
  | none => exact hd
  | some n =>
      by_cases h : n = 0
      · simp [h, hd]
      · simp [h]

theorem orElseRat_ne_zero (x : Option ℚ) (d : ℚ) (hd : ¬ d = 0) :
    ¬ orElseRat x d = 0 := by
  unfold orElseRat
  cases x with
  | none => exact hd
  | some q =>
      by_cases h : q = 0
      · simp [h, hd]
      · simp [h]

/-- C10: an explicit zero override of any `RateLimiter` numeric parameter
(or of `BlockManager`'s two parameters) is falsy in Python's `or` chain and
is replaced by the settings default, so these constructors can never produce
a zero-valued limit or delay. -/
theorem c10_falsy_overrides :
    RateLimiter.init (some 0) (some 0) (some 0) (some 0)
      = RateLimiter.init none none none none ∧
    (RateLimiter.init (some 0) (some 0) (some 0) (some 0)).max_per_hour
      = MAX_DELETIONS_PER_HOUR ∧
    (RateLimiter.init (some 0) (some 0) (some 0) (some 0)).mean_delay = MEAN_DELAY_SECONDS ∧
    (RateLimiter.init (some 0) (some 0) (some 0) (some 0)).std_dev = DELAY_STD_DEV ∧
    (RateLimiter.init (some 0) (some 0) (some 0) (some 0)).min_delay = MIN_DELAY_SECONDS ∧
    BlockManager.init (some 0) (some 0) = BlockManager.init none none ∧
    (BlockManager.init (some 0) (some 0)).block_wait_hours = BLOCK_WAIT_HOURS ∧
    (BlockManager.init (some 0) (some 0)).backoff_multiplier = BACKOFF_MULTIPLIER ∧
    (∀ (a : Option Nat) (b c d : Option ℚ),
      ¬ (RateLimiter.init a b c d).max_per_hour = 0 ∧
      ¬ (RateLimiter.init a b c d).mean_delay = 0 ∧
      ¬ (RateLimiter.init a b c d).std_dev = 0 ∧
      ¬ (RateLimiter.init a b c d).min_delay = 0) ∧
    ∀ (a b : Option ℚ),
      ¬ (BlockManager.init a b).block_wait_hours = 0 ∧
      ¬ (BlockManager.init a b).backoff_multiplier = 0 := by
  refine ⟨rfl, rfl, rfl, rfl, rfl, rfl, rfl, rfl, ?_, ?_⟩
  · intro a b c d
    refine ⟨?_, ?_, ?_, ?_⟩
    · exact orElseNat_ne_zero a MAX_DELETIONS_PER_HOUR (by norm_num [MAX_DELETIONS_PER_HOUR])
    · exact orElseRat_ne_zero b MEAN_DELAY_SECONDS (by norm_num [MEAN_DELAY_SECONDS])
    · exact orElseRat_ne_zero c DELAY_STD_DEV (by norm_num [DELAY_STD_DEV])
    · exact orElseRat_ne_zero d MIN_DELAY_SECONDS (by norm_num [MIN_DELAY_SECONDS])
  · intro a b
    constructor
    · exact orElseRat_ne_zero a BLOCK_WAIT_HOURS (by norm_num [BLOCK_WAIT_HOURS])
    · exact orElseRat_ne_zero b BACKOFF_MULTIPLIER (by norm_num [BACKOFF_MULTIPLIER])

/-- C3: `should_continue` is true whenever no block was ever detected; a
detection at time `T` flips `block_detected`, stamps `last_block_time = T`,
increments `block_count`, and from then on `should_continue` is false
strictly before `T + wait_hours` and true from `T + wait_hours` on
(`wait_hours` converted to seconds, times being in seconds). -/
theorem c3_block_lifecycle (bm : BlockManager) (page : Page) (det : ErrorDetector) (T : ℚ)
    (hdet : (det.check_for_errors page).1 = true) :
    (bm.block_detected = false → ∀ q : ℚ, bm.should_continue q = true) ∧
    (bm.check_and_handle_block page det T).1 = true ∧
    (bm.check_and_handle_block page det T).2.block_detected = true ∧
    (bm.check_and_handle_block page det T).2.last_block_time = some T ∧
    (bm.check_and_handle_block page det T).2.block_count = bm.block_count + 1 ∧
    (∀ q : ℚ, q < T + bm.block_wait_hours * 3600 →
      (bm.check_and_handle_block page det T).2.should_continue q = false) ∧
    (∀ q : ℚ, T + bm.block_wait_hours * 3600 ≤ q →
      (bm.check_and_handle_block page det T).2.should_continue q = true) := by
  have hcb : bm.check_and_handle_block page det T
      = (true,
         { bm with
           block_detected := true
           last_block_time := some T
           block_count := bm.block_count + 1 }) := by
    simp [BlockManager.check_and_handle_block, hdet]
  refine ⟨?_, ?_, ?_, ?_, ?_, ?_, ?_⟩
  · intro h q
    simp [BlockManager.should_continue, h]
  · rw [hcb]
  · rw [hcb]
  · rw [hcb]
  · rw [hcb]
  · intro q hq
    have hlt : (q - T) / 3600 < bm.block_wait_hours := by
      rw [div_lt_iff₀ (by norm_num : (0:ℚ) < 3600)]
      linarith
    rw [hcb]
    simp [BlockManager.should_continue, hlt]
  · intro q hq
    have hnlt : ¬ (q - T) / 3600 < bm.block_wait_hours := by
      rw [div_lt_iff₀ (by norm_num : (0:ℚ) < 3600)]
      push_neg
      linarith
    rw [hcb]
    simp [BlockManager.should_continue, hnlt]

/-- C3 witness: the spec's scenario D — page content contains
"Action Blocked"; detection at time 0 makes `should_continue` false right
away (here queried at 100 seconds after the block). -/
theorem c3_block_witness :
    ((BlockManager.init none none).check_and_handle_block
        ⟨"https://m.example/page", some "stuff Action Blocked stuff"⟩
        (ErrorDetector.init none) 0).1 = true ∧
    ((BlockManager.init none none).check_and_handle_block
        ⟨"https://m.example/page", some "stuff Action Blocked stuff"⟩
        (ErrorDetector.init none) 0).2.block_detected = true ∧
    ((BlockManager.init none none).check_and_handle_block
        ⟨"https://m.example/page", some "stuff Action Blocked stuff"⟩
        (ErrorDetector.init none) 0).2.block_count = 1 ∧
    ((BlockManager.init none none).check_and_handle_block
        ⟨"https://m.example/page", some "stuff Action Blocked stuff"⟩
        (ErrorDetector.init none) 0).2.should_continue 100 = false := by
  have h := c3_block_lifecycle (BlockManager.init none none)
    ⟨"https://m.example/page", some "stuff Action Blocked stuff"⟩
    (ErrorDetector.init none) 0 (by decide)
  refine ⟨h.2.1, h.2.2.1, h.2.2.2.2.1, h.2.2.2.2.2.1 100 ?_⟩
  show (100 : ℚ) < 0 + 24 * 3600
  norm_num

theorem run_attempts_count_le (beh : Nat → DeleteOutcome) :
    ∀ (fuel attempt : Nat) (lastError : Option String),
      (run_attempts beh attempt fuel lastError).2 ≤ fuel := by
  intro fuel
  induction fuel with
  | zero =>
      intro attempt lastError
      simp [run_attempts]
  | succ n ih =>
      intro attempt lastError
      cases hb : beh attempt with
      | result success msg =>
          cases success with
          | false =>
              by_cases ht : isTransientMsg msg = false
              · simp [run_attempts, hb, ht]
              · have hr := ih (attempt + 1) (some msg)
                simp [run_attempts, hb, ht]
                omega
          | true => simp [run_attempts, hb]
      | timeoutRaise m =>
          have hr := ih (attempt + 1) (some ("Timeout: " ++ m))
          simp [run_attempts, hb]
          omega
      | raised m => simp [run_attempts, hb]

/-- C5: `delete_item` fails immediately (zero `delete` invocations) when no
handler matches; otherwise the selected handler's `delete` runs at most
`max_retries` times; a first-attempt non-transient failure or unexpected
exception returns immediately after exactly one invocation; and in the
spec's scenario B (timeout raised twice, success on the third attempt,
`max_retries = 3`) it returns success with exactly 3 invocations. -/
theorem c5_delete_item_retries (handlers : List Handler) (item : Item) (h : Handler)
    (msg m m0 m1 : String) (mr : Nat) :
    (select_handler handlers item = none →
      delete_item handlers item mr = ((false, no_handler_msg item), 0)) ∧
    (delete_item handlers item mr).2 ≤ mr ∧
    (select_handler handlers item = some h → 1 ≤ mr →
      h.deleteRun item 0 = DeleteOutcome.result false msg →
      isTransientMsg msg = false →
      delete_item handlers item mr = ((false, msg), 1)) ∧
    (select_handler handlers item = some h → 1 ≤ mr →
      h.deleteRun item 0 = DeleteOutcome.raised m →
      delete_item handlers item mr = ((false, "Unexpected error: " ++ m), 1)) ∧
    (select_handler handlers item = some h →
      h.deleteRun item 0 = DeleteOutcome.timeoutRaise m0 →
      h.deleteRun item 1 = DeleteOutcome.timeoutRaise m1 →
      h.deleteRun item 2 = DeleteOutcome.result true "Success" →
      delete_item handlers item 3 = ((true, "Success"), 3)) := by
  refine ⟨?_, ?_, ?_, ?_, ?_⟩
  · intro hsel
    simp [delete_item, hsel]
  · cases hsel : select_handler handlers item with
    | none => simp [delete_item, hsel]
    | some h' =>
        simp only [delete_item, hsel]
        exact run_attempts_count_le (h'.deleteRun item) mr 0 none
  · intro hsel hmr hbeh htrans
    obtain ⟨k, rfl⟩ : ∃ k, mr = k + 1 := ⟨mr - 1, by omega⟩
    simp [delete_item, hsel, run_attempts, hbeh, htrans]
  · intro hsel hmr hbeh
    obtain ⟨k, rfl⟩ : ∃ k, mr = k + 1 := ⟨mr - 1, by omega⟩
    simp [delete_item, hsel, run_attempts, hbeh]
  · intro hsel h0 h1 h2
    simp [delete_item, hsel, run_attempts, h0, h1, h2]

/-- C5 witness: the spec's scenario B on a concrete handler. -/
theorem c5_delete_item_witness :
    delete_item
      [⟨fun _ => Except.ok true,
        fun _ n => if n < 2 then DeleteOutcome.timeoutRaise "t"
                   else DeleteOutcome.result true "Success"⟩]
      ⟨some "post", some "2020-01-01"⟩ 3
    = ((true, "Success"), 3) := by
  have h := c5_delete_item_retries
    [⟨fun _ => Except.ok true,
      fun _ n => if n < 2 then DeleteOutcome.timeoutRaise "t"
                 else DeleteOutcome.result true "Success"⟩]
    ⟨some "post", some "2020-01-01"⟩
    ⟨fun _ => Except.ok true,
     fun _ n => if n < 2 then DeleteOutcome.timeoutRaise "t"
                else DeleteOutcome.result true "Success"⟩
    "" "" "t" "t" 3
  exact h.2.2.2.2 rfl rfl rfl rfl

/-- C10 witness: the default-constructed limiter has a nonzero mean delay. -/
theorem c10_falsy_witness :
    ¬ (RateLimiter.init none none none none).mean_delay = 0 := by
  have h := c10_falsy_overrides
  exact (h.2.2.2.2.2.2.2.2.1 none none none none).2.1

/-- C2: inside the per-item loop, a false `should_continue` gate appends
exactly one synthetic "block" error entry and ends the batch (the result
does not depend on the remaining items); a true block gate followed by a
false `wait_before_action` appends exactly one synthetic "rate_limit" entry
and ends the batch; and `wait_before_action` is false precisely when the
trailing-hour window has reached `max_per_hour` (the source then returns
before its sleep). -/
theorem c2_gate_stops_batch (env : StepEnv) (handlers : List Handler) (det : ErrorDetector)
    (i : Nat) (item : Item) (rest : List Item) (rl : RateLimiter) (bm : BlockManager)
    (stats : Stats) :
    (bm.should_continue (env.stepTime i) = false →
      process_items env handlers det (item :: rest) i rl bm stats
        = ({ stats with errors := stats.errors ++ [block_error_entry] }, rl, bm)) ∧
    (bm.should_continue (env.stepTime i) = true →
      (rl.wait_before_action (env.stepTime i)).1 = false →
      process_items env handlers det (item :: rest) i rl bm stats
        = ({ stats with errors := stats.errors ++ [rate_limit_entry] },
           (rl.wait_before_action (env.stepTime i)).2, bm)) ∧
    ((rl.wait_before_action (env.stepTime i)).1 = false ↔
      rl.max_per_hour ≤ (pruneWindow (env.stepTime i) rl.action_times).length) := by
  refine ⟨?_, ?_, ?_⟩
  · intro hgate
    simp [process_items, hgate]
  · intro hgate hrate
    simp [process_items, hgate, hrate]
  · unfold RateLimiter.wait_before_action RateLimiter.check_rate_limit
    by_cases h : rl.max_per_hour ≤ (pruneWindow (env.stepTime i) rl.action_times).length
    · simp [h]
    · simp [h]

/-- C2 witness: a blocked manager stops the batch with the synthetic block
entry; a limiter at its hourly cap (2 of 2 used) stops it with the synthetic
rate-limit entry. -/
theorem c2_gate_witness :
    process_items c1EnvW [] (ErrorDetector.init none)
        [⟨some "post", some "2020-01-01"⟩] 0
        (RateLimiter.init none none none none)
        ⟨24, 3/2, true, some (-100), 1⟩ ⟨0, 0, 0, []⟩
      = (⟨0, 0, 0, [block_error_entry]⟩, RateLimiter.init none none none none,
         ⟨24, 3/2, true, some (-100), 1⟩) ∧
    process_items c1EnvW [] (ErrorDetector.init none)
        [⟨some "post", some "2020-01-01"⟩] 0
        ⟨2, 5, 3/2, 2, [-100, -50], 2⟩
        (BlockManager.init none none) ⟨0, 0, 0, []⟩
      = (⟨0, 0, 0, [rate_limit_entry]⟩,
         ((⟨2, 5, 3/2, 2, [-100, -50], 2⟩ : RateLimiter).wait_before_action
            (c1EnvW.stepTime 0)).2,
         BlockManager.init none none) := by
  constructor
  · refine (c2_gate_stops_batch c1EnvW [] (ErrorDetector.init none) 0
      ⟨some "post", some "2020-01-01"⟩ [] (RateLimiter.init none none none none)
      ⟨24, 3/2, true, some (-100), 1⟩ ⟨0, 0, 0, []⟩).1 ?_
    norm_num [BlockManager.should_continue, c1EnvW]
  · refine (c2_gate_stops_batch c1EnvW [] (ErrorDetector.init none) 0
      ⟨some "post", some "2020-01-01"⟩ [] ⟨2, 5, 3/2, 2, [-100, -50], 2⟩
      (BlockManager.init none none) ⟨0, 0, 0, []⟩).2.1 rfl ?_
    norm_num [RateLimiter.wait_before_action, RateLimiter.check_rate_limit, pruneWindow,
      List.filter, c1EnvW]

theorem tally_skipped (stats : Stats) (item : Item) (dres : Bool × String) :
    (tally stats item dres).skipped = stats.skipped := by
  unfold tally
  by_cases h : dres.1 = true
  · simp [h]
  · simp [h]

theorem process_items_skipped (env : StepEnv) (handlers : List Handler) (det : ErrorDetector) :
    ∀ (items : List Item) (i : Nat) (rl : RateLimiter) (bm : BlockManager) (stats : Stats),
      (process_items env handlers det items i rl bm stats).1.skipped = stats.skipped := by
  intro items
  induction items with
  | nil =>
      intro i rl bm stats
      rfl
  | cons item rest ih =>
      intro i rl bm stats
      simp only [process_items]
      split
      · rfl
      · split
        · rfl
        · split
          · split
            · rfl
            · rw [ih, tally_skipped]
          · rw [ih, tally_skipped]

/-- C9: the `skipped` counter of every `process_page` outcome is 0 — it is
initialized and reported but no code path increments it. -/
theorem c9_skipped_always_zero (env : StepEnv) (eng : Engine) (items : List Item) :
    (process_page env eng items).1.skipped = 0 := by
  simp only [process_page]
  split
  · rfl
  · rw [process_items_skipped]

theorem update_progress_state_persisted (eng : Engine) (stats : Stats) (nowIso : String)
    (fields : List (String × Json)) (a b c : ℚ)
    (hstate : (eng.sm.get_state nowIso).1 = Json.obj fields)
    (h1 : lookupKey fields "total_deleted" = some (Json.num a))
    (h2 : lookupKey fields "deleted_today" = some (Json.num b))
    (h3 : lookupKey fields "errors_encountered" = some (Json.num c)) :
    persisted (update_progress_state eng stats nowIso) "total_deleted"
      = some (Json.num (a + stats.deleted)) ∧
    persisted (update_progress_state eng stats nowIso) "deleted_today"
      = some (Json.num (b + stats.deleted)) ∧
    persisted (update_progress_state eng stats nowIso) "errors_encountered"
      = some (Json.num (c + stats.errors.length)) ∧
    persisted (update_progress_state eng stats nowIso) "block_detected"
      = some (Json.bool eng.bm.block_detected) ∧
    persisted (update_progress_state eng stats nowIso) "block_count"
      = some (Json.num eng.bm.block_count) ∧
    persisted (update_progress_state eng stats nowIso) "last_updated"
      = some (Json.str nowIso) := by
  have hb1 : bumpNumField fields "total_deleted" stats.deleted
      = some (dictSet fields "total_deleted" (Json.num (a + stats.deleted))) := by
    unfold bumpNumField
    rw [h1]
  have hl2 : lookupKey (dictSet fields "total_deleted" (Json.num (a + stats.deleted)))
      "deleted_today" = some (Json.num b) := by
    rw [lookupKey_dictSet_ne fields "total_deleted" "deleted_today" _ (by decide)]
    exact h2
  have hb2 : bumpNumField (dictSet fields "total_deleted" (Json.num (a + stats.deleted)))
      "deleted_today" stats.deleted
      = some (dictSet (dictSet fields "total_deleted" (Json.num (a + stats.deleted)))
          "deleted_today" (Json.num (b + stats.deleted))) := by
    unfold bumpNumField
    rw [hl2]
  have hl3 : lookupKey (dictSet (dictSet fields "total_deleted"
        (Json.num (a + stats.deleted))) "deleted_today" (Json.num (b + stats.deleted)))
      "errors_encountered" = some (Json.num c) := by
    rw [lookupKey_dictSet_ne _ "deleted_today" "errors_encountered" _ (by decide),
      lookupKey_dictSet_ne _ "total_deleted" "errors_encountered" _ (by decide)]
    exact h3
  have hb3 : bumpNumField (dictSet (dictSet fields "total_deleted"
        (Json.num (a + stats.deleted))) "deleted_today" (Json.num (b + stats.deleted)))
      "errors_encountered" stats.errors.length
      = some (dictSet (dictSet (dictSet fields "total_deleted"
          (Json.num (a + stats.deleted))) "deleted_today" (Json.num (b + stats.deleted)))
          "errors_encountered" (Json.num (c + stats.errors.length))) := by
    unfold bumpNumField
    rw [hl3]
  have hupd : try_update (Json.obj fields) stats eng.bm
      = some (dictSet (dictSet (dictSet (dictSet (dictSet fields
          "total_deleted" (Json.num (a + stats.deleted)))
          "deleted_today" (Json.num (b + stats.deleted)))
          "errors_encountered" (Json.num (c + stats.errors.length)))
          "block_detected" (Json.bool eng.bm.block_detected))
          "block_count" (Json.num eng.bm.block_count)) := by
    simp only [try_update, hb1, hb2, hb3]
  simp only [update_progress_state, hstate, hupd, persisted, StateManager.save_state]
  refine ⟨?_, ?_, ?_, ?_, ?_, ?_⟩
  · rw [lookupKey_dictSet_ne _ "last_updated" "total_deleted" _ (by decide),
      lookupKey_dictSet_ne _ "block_count" "total_deleted" _ (by decide),
      lookupKey_dictSet_ne _ "block_detected" "total_deleted" _ (by decide),
      lookupKey_dictSet_ne _ "errors_encountered" "total_deleted" _ (by decide),
      lookupKey_dictSet_ne _ "deleted_today" "total_deleted" _ (by decide),
      lookupKey_dictSet_self]
  · rw [lookupKey_dictSet_ne _ "last_updated" "deleted_today" _ (by decide),
      lookupKey_dictSet_ne _ "block_count" "deleted_today" _ (by decide),
      lookupKey_dictSet_ne _ "block_detected" "deleted_today" _ (by decide),
      lookupKey_dictSet_ne _ "errors_encountered" "deleted_today" _ (by decide),
      lookupKey_dictSet_self]
  · rw [lookupKey_dictSet_ne _ "last_updated" "errors_encountered" _ (by decide),
      lookupKey_dictSet_ne _ "block_count" "errors_encountered" _ (by decide),
      lookupKey_dictSet_ne _ "block_detected" "errors_encountered" _ (by decide),
      lookupKey_dictSet_self]
  · rw [lookupKey_dictSet_ne _ "last_updated" "block_detected" _ (by decide),
      lookupKey_dictSet_ne _ "block_count" "block_detected" _ (by decide),
      lookupKey_dictSet_self]
  · rw [lookupKey_dictSet_ne _ "last_updated" "block_count" _ (by decide),
      lookupKey_dictSet_self]
  · rw [lookupKey_dictSet_self]

/-- C1 counterexample: when extraction yields no items, `process_page`
returns before `_update_progress_state` is ever called, so nothing is
persisted — here the progress file is still missing after the call, so the
persisted state neither carries the (zero) batch deltas nor mirrors the
BlockManager fields, refuting "progress is persisted ... including calls
where item extraction yields no items". -/
theorem c1_empty_extraction_no_persist :
    (process_page c1EnvW c1EngW []).2.sm.file = FileState.missing ∧
    persisted (process_page c1EnvW c1EngW []).2.sm "block_detected" = none :=
  ⟨rfl, rfl⟩

/-- C1 (amended): for every call whose extracted item list is non-empty and
whose current state carries numeric `total_deleted`, `deleted_today` and
`errors_encountered` fields (as the default state does), the state persisted
after the batch adds the batch's deleted count to `total_deleted` and
`deleted_today`, adds the length of the batch's error list to
`errors_encountered`, and mirrors the BlockManager's current
`block_detected`/`block_count`. -/
theorem c1_persist_after_nonempty_batch (env : StepEnv) (eng : Engine)
    (x : Item) (xs : List Item)
    (fields : List (String × Json)) (a b c : ℚ)
    (hstate : (eng.sm.get_state env.nowIso).1 = Json.obj fields)
    (h1 : lookupKey fields "total_deleted" = some (Json.num a))
    (h2 : lookupKey fields "deleted_today" = some (Json.num b))
    (h3 : lookupKey fields "errors_encountered" = some (Json.num c)) :
    persisted (process_page env eng (x :: xs)).2.sm "total_deleted"
      = some (Json.num (a + (process_page env eng (x :: xs)).1.deleted)) ∧
    persisted (process_page env eng (x :: xs)).2.sm "deleted_today"
      = some (Json.num (b + (process_page env eng (x :: xs)).1.deleted)) ∧
    persisted (process_page env eng (x :: xs)).2.sm "errors_encountered"
      = some (Json.num (c + (process_page env eng (x :: xs)).1.errors.length)) ∧
    persisted (process_page env eng (x :: xs)).2.sm "block_detected"
      = some (Json.bool (process_page env eng (x :: xs)).2.bm.block_detected) ∧
    persisted (process_page env eng (x :: xs)).2.sm "block_count"
      = some (Json.num (process_page env eng (x :: xs)).2.bm.block_count) ∧
    persisted (process_page env eng (x :: xs)).2.sm "last_updated"
      = some (Json.str env.nowIso) :=
  update_progress_state_persisted
    { eng with
      rl := (process_items env eng.handlers eng.det (x :: xs) 0 eng.rl eng.bm ⟨0, 0, 0, []⟩).2.1
      bm := (process_items env eng.handlers eng.det (x :: xs) 0 eng.rl eng.bm ⟨0, 0, 0, []⟩).2.2 }
    (process_items env eng.handlers eng.det (x :: xs) 0 eng.rl eng.bm ⟨0, 0, 0, []⟩).1
    env.nowIso fields a b c hstate h1 h2 h3

/-- C1 witness: a fresh engine over a missing file (so `get_state` yields
the default state) processing a one-item page. -/
theorem c1_persist_witness :
    persisted (process_page c1EnvW c1EngW [⟨some "post", some "2020-01-01"⟩]).2.sm
        "total_deleted"
      = some (Json.num (0 + (process_page c1EnvW c1EngW
          [⟨some "post", some "2020-01-01"⟩]).1.deleted)) ∧
    persisted (process_page c1EnvW c1EngW [⟨some "post", some "2020-01-01"⟩]).2.sm
        "deleted_today"
      = some (Json.num (0 + (process_page c1EnvW c1EngW
          [⟨some "post", some "2020-01-01"⟩]).1.deleted)) ∧
    persisted (process_page c1EnvW c1EngW [⟨some "post", some "2020-01-01"⟩]).2.sm
        "errors_encountered"
      = some (Json.num (0 + (process_page c1EnvW c1EngW
          [⟨some "post", some "2020-01-01"⟩]).1.errors.length)) ∧
    persisted (process_page c1EnvW c1EngW [⟨some "post", some "2020-01-01"⟩]).2.sm
        "block_detected"
      = some (Json.bool (process_page c1EnvW c1EngW
          [⟨some "post", some "2020-01-01"⟩]).2.bm.block_detected) ∧
    persisted (process_page c1EnvW c1EngW [⟨some "post", some "2020-01-01"⟩]).2.sm
        "block_count"
      = some (Json.num (process_page c1EnvW c1EngW
          [⟨some "post", some "2020-01-01"⟩]).2.bm.block_count) ∧
    persisted (process_page c1EnvW c1EngW [⟨some "post", some "2020-01-01"⟩]).2.sm
        "last_updated"
      = some (Json.str "T0") :=
  c1_persist_after_nonempty_batch c1EnvW c1EngW ⟨some "post", some "2020-01-01"⟩ []
    c1FieldsT0 0 0 0 rfl rfl rfl rfl

end FbCleanup
